import Mathlib

/-!
Shallow embedding of the Cre8Worthy pricing engine and debounce controller
(`pricing.py`, `gemini_api.py`, `data_utils.py`, and the timer / validation
logic of `ui.py`), together with theorems settling the specification claims.

Python floats are modelled as exact rationals (`ℚ`); the remote Gemini
service is modelled as a script of per-call outcomes (success text or raised
exception text), so that every oracle-dependent computation is a pure
function of that script.
-/

namespace Cre8Worthy

/-! ### String helpers (Python `in`, `.lower()`, `.strip()`, regexes) -/

/-- Python substring containment `pat in s`, on character lists. -/
def containsL (pat : List Char) : List Char → Bool
  | [] => pat.isEmpty
  | c :: t => pat.isPrefixOf (c :: t) || containsL pat t

/-- Python `needle in hay` on strings. -/
def pyIn (needle hay : String) : Bool := containsL needle.data hay.data

/-- Python `str.lower()` (ASCII case folding, which is all the keyword
checks in the source need). -/
def lowerStr (s : String) : String := ⟨s.data.map Char.toLower⟩

/-- Python `str.strip()`. -/
def strip (s : String) : String :=
  ⟨((s.data.dropWhile Char.isWhitespace).reverse.dropWhile Char.isWhitespace).reverse⟩

/-- Numeric value of an ASCII digit. -/
def digitVal (c : Char) : ℕ := c.toNat - 48

/-- Value of a digit run, as Python `int` on the digit string. -/
def natOfDigits (l : List Char) : ℕ := l.foldl (fun a c => a * 10 + digitVal c) 0

/-- Python `re.search(r"(\d+)", s)` followed by `int(...)`: the first
maximal run of digits, if any. -/
def first_int_run : List Char → Option ℕ
  | [] => none
  | c :: rest =>
    if c.isDigit then some (natOfDigits (c :: rest.takeWhile Char.isDigit))
    else first_int_run rest

/-- String wrapper for `first_int_run`. -/
def search_int (s : String) : Option ℕ := first_int_run s.data

/-- Scanner equivalent to Python
`[int(re.sub(r"\s", "", m)) for m in re.findall(r"(\d+(?:\s*\d+)*)", s)]`:
maximal groups of digit runs separated by whitespace are each read as one
number (the whitespace is dropped); any other separator ends the group. -/
def scanNums : List Char → Option ℕ → List ℕ
  | [], none => []
  | [], some v => [v]
  | c :: rest, acc =>
    if c.isDigit then scanNums rest (some (acc.getD 0 * 10 + digitVal c))
    else if c.isWhitespace then scanNums rest acc
    else
      match acc with
      | some v => v :: scanNums rest none
      | none => scanNums rest none

/-- All numbers found in a response, per the `get_artist_price` regex. -/
def extractNums (s : String) : List ℕ := scanNums s.data none

/-! ### `gemini_api.py`: oracle client and audit records -/

/-- Outcome of one underlying `model.generate_content` request: either the
response text or the text of the raised exception, plus the elapsed time. -/
structure OracleOutcome where
  outcome : Except String String
  duration : ℚ

/-- One row of the `gemini_interactions` audit table
(`store_interaction` in `gemini_api.py`). -/
structure Interaction where
  request_type : String
  prompt : String
  response : String
  duration : ℚ
deriving DecidableEq

/-- `consult_api_gemini` (gemini_api.py lines 91-125): on success returns the
response text; on an exception returns `"API Error: " + str(e)` instead of
propagating.  In both cases exactly one interaction row is stored. -/
def consult_api_gemini (o : OracleOutcome) (prompt : String) (request_type : String) :
    String × Interaction :=
  match o.outcome with
  | Except.ok response_text =>
    (response_text,
     { request_type := request_type, prompt := prompt,
       response := response_text, duration := o.duration })
  | Except.error e =>
    let error_msg := "API Error: " ++ e
    (error_msg,
     { request_type := request_type, prompt := prompt,
       response := error_msg, duration := o.duration })

/-- `check_known_artist`: asks the oracle and tests `"yes" in response.lower()`. -/
def check_known_artist (o : OracleOutcome) (artiste : String) : Bool × Interaction :=
  let prompt := "Is " ++ artiste ++
    " a known/recognized artist? Answer ONLY with \x27yes\x27 or \x27no\x27."
  let r := consult_api_gemini o prompt "artist_recognition"
  (pyIn "yes" (lowerStr r.1), r.2)

/-- `get_artist_price`: asks for a typical price and returns the mean of all
numbers found in the response (`None` when there is none). -/
def get_artist_price (o : OracleOutcome) (artiste type_produit : String) :
    Option ℚ × Interaction :=
  let prompt := "What is the average price or typical price range for " ++ type_produit ++
    "s by artist " ++ artiste ++
    " based on previous sales? Give ONLY a number or brief range in euros."
  let r := consult_api_gemini o prompt "artist_price_check"
  let nums := extractNums r.1
  (match nums with
   | [] => none
   | ns => some ((ns.sum : ℚ) / (ns.length : ℚ)), r.2)

/-- `get_product_type_requirements`: returns the raw response text. -/
def get_product_type_requirements (o : OracleOutcome) (type_produit : String) :
    String × Interaction :=
  let prompt := "\n    For an artistic product of type \x27" ++ type_produit ++
    "\x27, which of the following characteristics are generally necessary?\n" ++
    "    Answer ONLY in the form of a Python dictionary with the following keys and " ++
    "\x27true\x27 or \x27false\x27 values:\n    \x7b\n" ++
    "        \"needs_height\": true/false,\n" ++
    "        \"needs_weight\": true/false,\n" ++
    "        \"needs_resolution\": true/false,\n" ++
    "        \"needs_duration\": true/false,\n" ++
    "        \"is_2d\": true/false,\n" ++
    "        \"is_3d\": true/false,\n" ++
    "        \"is_digital\": true/false\n    \x7d\n    "
  consult_api_gemini o prompt "product_requirements"

/-- `get_starting_price_from_gpt`: builds the detail list with Python
truthiness checks on each optional argument and asks for a price range. -/
def get_starting_price_from_gpt (o : OracleOutcome) (type_produit artiste marche : String)
    (materiaux : List String) (dimensions : String) (poids : Option String)
    (resolution : Option (String ⊕ ℚ)) (duration : Option ℚ) (is_digital : Bool) :
    String × Interaction :=
  let details1 : List String :=
    match resolution with
    | some (Sum.inl r) => if r ≠ "" then ["resolution: " ++ r] else []
    | some (Sum.inr q) => if q ≠ 0 then ["resolution: " ++ toString q] else []
    | none => []
  let details2 : List String :=
    match duration with
    | some d => if d ≠ 0 then ["duration: " ++ toString d ++ " minutes"] else []
    | none => []
  let details3 : List String :=
    match poids with
    | some w => if w ≠ "" then ["weight: " ++ w] else []
    | none => []
  let details4 : List String := if is_digital then ["digital format"] else []
  let additional_details := details1 ++ details2 ++ details3 ++ details4
  let details_text :=
    if additional_details ≠ [] then String.intercalate ", " additional_details else ""
  let prompt := "\n    As artist " ++ artiste ++ " selling a " ++ type_produit ++
    " in the " ++ marche ++ " market, with materials: " ++
    String.intercalate ", " materiaux ++ ",\n    dimensions: " ++ dimensions ++
    (if details_text ≠ "" then ", " ++ details_text else "") ++
    ".\n    Give ONLY a recommended price range in euros, as a single number " ++
    "or a brief range (e.g., \x271200-1500\x27).\n    "
  consult_api_gemini o prompt "price_recommendation"

/-! ### `pricing.py`: the pricing engine -/

/-- The `values` dictionary assembled by the UI (all costs and dimensions are
Python floats; `resolution` may be a string or a number, and the optional
keys may be absent). -/
structure Values where
  longueur : ℚ
  largeur : ℚ
  hauteur : ℚ := 0
  poids : ℚ := 0
  materiaux : ℚ
  livraison : ℚ
  pub : ℚ
  temps : ℚ
  resolution : Option (String ⊕ ℚ) := none
  resolution_factor : Option ℚ := none
  duration : Option ℚ := none

/-- The requirement flags derived from the oracle response
(pricing.py lines 15-22). -/
structure Requirements where
  is_digital : Bool
  is_3d : Bool
  needs_height : Bool
  needs_weight : Bool
  needs_duration : Bool
  needs_resolution : Bool
deriving DecidableEq

/-- pricing.py lines 13-22: `consult_api_gemini` always returns a string, so
the `isinstance(requirements, str)` branch always runs and the flags are
derived by case-insensitive keyword presence in the response. -/
def parseRequirements (s : String) : Requirements :=
  let req_str := lowerStr s
  { is_digital := pyIn "digital" req_str
    is_3d := pyIn "3d" req_str || pyIn "three-dimensional" req_str ||
      pyIn "sculpture" req_str || pyIn "installation" req_str
    needs_height := pyIn "height" req_str || pyIn "dimension" req_str
    needs_weight := pyIn "weight" req_str || pyIn "mass" req_str
    needs_duration := pyIn "duration" req_str || pyIn "length" req_str
    needs_resolution := pyIn "resolution" req_str || pyIn "quality" req_str }

/-- The market-demand prompt (pricing.py line 26). -/
def prompt_market (type_produit marche : String) : String :=
  "Rate from 1 to 10 the demand for " ++ type_produit ++ " in the " ++
    marche ++ " market. Number only."

/-- pricing.py lines 44-74: the dimension factor.  Digital products use a
step function of pixel area guarded by `pixel_area > 0`; 3D physical objects
average a volume factor with a weight factor; 2D physical objects use the
surface. -/
def dimension_factor (is_digital is_3d : Bool) (longueur largeur height_val weight_val : ℚ) : ℚ :=
  if is_digital then
    let pixel_area := longueur * largeur
    if pixel_area > 0 then
      if pixel_area < 1000000 then 0.8
      else if pixel_area < 4000000 then 1.0
      else if pixel_area < 8000000 then 1.2
      else 1.5
    else 1.0
  else if is_3d then
    let volume := longueur * largeur * height_val
    let df := max 1.0 (volume / 1000)
    let weight_factor := max 1.0 (weight_val / 5)
    (df + weight_factor) / 2
  else
    max 1.0 ((longueur * largeur) / 100)

/-- pricing.py lines 59, 61, 66, 74: the formatted dimension string
(`"Unknown"` when a digital product has no positive pixel area). -/
def dimensions_string (is_digital is_3d : Bool) (longueur largeur height_val : ℚ) : String :=
  if is_digital then
    if longueur * largeur > 0 then
      toString longueur ++ "px x " ++ toString largeur ++ "px"
    else "Unknown"
  else if is_3d then
    toString longueur ++ "cm x " ++ toString largeur ++ "cm x " ++ toString height_val ++ "cm"
  else
    toString longueur ++ "cm x " ++ toString largeur ++ "cm"

/-- pricing.py lines 84-103: the compounded resolution and duration factors. -/
def additional_factors (values : Values) : ℚ :=
  let res_factor : ℚ :=
    match values.resolution with
    | some (Sum.inl r) =>
      if pyIn "4K" r || pyIn "8K" r then 1.4
      else if pyIn "2K" r || pyIn "Full HD" r then 1.2
      else if pyIn "HD" r then 1.1
      else 1.0
    | _ => 1.0
  let dur_factor : ℚ :=
    match values.duration with
    | some d => if d > 0 then min 3.0 (1 + d / 60) else 1.0
    | none => 1.0
  res_factor * dur_factor

/-- pricing.py line 37: the fixed reputation bonus for a known artist. -/
def reputation_bonus (is_known : Bool) : ℚ := if is_known then 50 else 0

/-- pricing.py lines 79-110: the product-of-factors price before the
known-artist averaging and the digital premium. -/
def unadjusted_price (values : Values) (material_count market_demand : ℕ)
    (bonus dim add : ℚ) : ℚ :=
  let base_cost := values.materiaux + values.livraison + values.pub
  let time_cost := values.temps * 15
  let complexity := 1.0 + (material_count : ℚ) * 0.1
  let market_rarity := 0.8 + 0.05 * (market_demand : ℚ)
  (base_cost + time_cost + bonus) * complexity * market_rarity * dim * add

/-- Python truthiness of the optional reference price
(`if is_known and reference_price:`): `None` and `0.0` are falsy. -/
def pyTruthy : Option ℚ → Bool
  | none => false
  | some v => if v = 0 then false else true

/-- pricing.py lines 116-119: the digital resolution premium, applied after
the known-artist averaging. -/
def digital_premium (values : Values) (is_digital : Bool) (p : ℚ) : ℚ :=
  if is_digital && values.resolution.isSome then
    p * (1.0 + 0.1 * values.resolution_factor.getD 1.0)
  else p

/-- The result dictionary of `calculate_price` (pricing.py lines 134-143);
`height`/`weight` are the empty string (`none`) for non-3D products. -/
structure PriceResult where
  prix : ℚ
  demande_marche : ℕ
  dimensions : String
  materiaux : String
  artiste_connu : Bool
  gemini_price : String
  height : Option ℚ
  weight : Option ℚ
deriving DecidableEq

/-- What one `calculate_price` call did: its return value (or the propagated
exception text if the ledger append raised), every oracle interaction row it
stored, and how many rows it appended to the CSV ledger. -/
structure CalcOutput where
  result : Except String PriceResult
  interactions : List Interaction
  rowsAppended : ℕ

/-- The outcomes of the (up to five) remote requests one `calculate_price`
call can make, in source order. -/
structure OracleScript where
  requirements : OracleOutcome
  market : OracleOutcome
  known : OracleOutcome
  artistPrice : OracleOutcome
  starting : OracleOutcome

/-- `calculate_price` (pricing.py lines 9-157).  The oracle calls are
resolved against `os`; `ledger` is the outcome of `data_utils.save_to_file`
(data_utils.py lines 22-27), whose exception — the append is not wrapped in
any handler — propagates after all oracle calls were already made. -/
def calculate_price (os : OracleScript) (ledger : Except String Unit) (values : Values)
    (type_produit artiste marche : String) (materiaux_selectionnes : List String)
    (is_3d : Bool) : CalcOutput :=
  let reqR := get_product_type_requirements os.requirements type_produit
  let requirements := parseRequirements reqR.1
  let is_digital := requirements.is_digital
  let marketR := consult_api_gemini os.market (prompt_market type_produit marche) "general"
  let market_demand := (search_int marketR.1).getD 5
  let knownR := check_known_artist os.known artiste
  let is_known := knownR.1
  let refR : Option ℚ × List Interaction :=
    if is_known then
      let pr := get_artist_price os.artistPrice artiste type_produit
      (pr.1, [pr.2])
    else (none, [])
  let reference_price := refR.1
  let height_val := if is_3d || requirements.needs_height then values.hauteur else 0
  let weight_val := if is_3d || requirements.needs_weight then values.poids else 0
  let dim_factor := dimension_factor is_digital is_3d values.longueur values.largeur
    height_val weight_val
  let dimensions := dimensions_string is_digital is_3d values.longueur values.largeur height_val
  let weight_info := if weight_val > 0 then some (toString weight_val ++ " kg") else none
  let p0 := unadjusted_price values materiaux_selectionnes.length market_demand
    (reputation_bonus is_known) dim_factor (additional_factors values)
  let p1 := if is_known && pyTruthy reference_price then
      (p0 + reference_price.getD 0) / 2
    else p0
  let price := digital_premium values is_digital p1
  let startR := get_starting_price_from_gpt os.starting type_produit artiste marche
    materiaux_selectionnes dimensions weight_info values.resolution values.duration is_digital
  let materials_text :=
    if materiaux_selectionnes ≠ [] then String.intercalate ", " materiaux_selectionnes
    else "None"
  let result : PriceResult :=
    { prix := price
      demande_marche := market_demand
      dimensions := dimensions
      materiaux := materials_text
      artiste_connu := is_known
      gemini_price := startR.1
      height := if is_3d then some height_val else none
      weight := if is_3d then some weight_val else none }
  let interactions := [reqR.2, marketR.2, knownR.2] ++ refR.2 ++ [startR.2]
  match ledger with
  | Except.ok _ =>
    { result := Except.ok result, interactions := interactions, rowsAppended := 1 }
  | Except.error e =>
    { result := Except.error e, interactions := interactions, rowsAppended := 0 }

/-! ### `ui.py`: validation in `ArtPricingApp.calculate_price` (lines 1102-1198) -/

/-- The validation and dispatch logic of the UI `calculate_price` handler:
inputs are read and stripped, the four cheap checks run in source order, and
only when all pass is the pricing engine (and hence any oracle call or
ledger append) invoked.  A raised `ValueError` is caught and displayed, so a
failed validation produces an error outcome with no interactions and no
rows. -/
def ui_calculate_price (os : OracleScript) (ledger : Except String Unit) (values : Values)
    (var_type entry_other_type entry_artist entry_market : String)
    (selected_materials : List String) (height_frame_mapped : Bool) : CalcOutput :=
  let product_type := if var_type = "Other" then strip entry_other_type else var_type
  let artist := strip entry_artist
  let market := strip entry_market
  if artist = "" then
    { result := Except.error "Please enter an artist name", interactions := [], rowsAppended := 0 }
  else if market = "" then
    { result := Except.error "Please enter a target market", interactions := [], rowsAppended := 0 }
  else if product_type = "" then
    { result := Except.error "Please select or specify a product type",
      interactions := [], rowsAppended := 0 }
  else if selected_materials = [] then
    { result := Except.error "Please select at least one material",
      interactions := [], rowsAppended := 0 }
  else
    let is_3d := (product_type = "Sculpture" || product_type = "Installation") ||
      height_frame_mapped
    calculate_price os ledger values product_type artist market selected_materials is_3d

/-! ### `ui.py`: the debounce controller (lines 1252-1302)

The entry text and the single Tk `after` timer are the controller state; a
timer is a deadline together with the stripped text captured when it was
armed.  Classification calls (`update_additional_costs_for_other_type`) are
the observable output, listed as `(time, text)` pairs. -/

/-- `self.typing_pause_interval = 1000` (ui.py line 147). -/
def typing_pause_interval : ℕ := 1000

/-- The debounce controller state: live entry text and the pending timer
(`self.input_timer`), if any. -/
structure DebounceState where
  text : String
  input_timer : Option (ℕ × String)
deriving DecidableEq

/-- Initial state: empty entry, no timer (ui.py line 145). -/
def initState : DebounceState := { text := "", input_timer := none }

/-- `start_input_check_timer` (ui.py lines 1252-1278): cancel any existing
timer; read and strip the current entry value; if empty do nothing more,
otherwise arm a timer for `interval` ms capturing the current value. -/
def start_input_check_timer (interval now : ℕ) (s : DebounceState) : DebounceState :=
  let s1 : DebounceState := { s with input_timer := none }
  let current_value := strip s1.text
  if current_value = "" then s1
  else { s1 with input_timer := some (now + interval, current_value) }

/-- A keystroke: the entry now holds `newText` and the bound handler
`start_input_check_timer` runs. -/
def on_text_changed (interval now : ℕ) (newText : String) (s : DebounceState) : DebounceState :=
  start_input_check_timer interval now { s with text := newText }

/-- `finish_typing` (ui.py lines 1280-1302): when the timer fires, compare
the captured value with the live (stripped) value; if unchanged issue the
classification call, otherwise restart the timer. -/
def finish_typing (interval now : ℕ) (value : String) (s : DebounceState) :
    DebounceState × List (ℕ × String) :=
  let current_value := strip s.text
  if value = current_value then
    ({ s with input_timer := none }, [(now, value)])
  else
    (start_input_check_timer interval now { s with input_timer := none }, [])

/-- Let a pending timer fire at its deadline and run to quiescence.  If the
`finish_typing` restart branch re-arms (it captures the live text, so the
immediately following firing always classifies), the second firing is taken
too. -/
def fireTimer (interval : ℕ) (s : DebounceState) : DebounceState × List (ℕ × String) :=
  match s.input_timer with
  | none => (s, [])
  | some (d, v) =>
    let r1 := finish_typing interval d v { s with input_timer := none }
    match r1.1.input_timer with
    | none => r1
    | some (d2, v2) =>
      let r2 := finish_typing interval d2 v2 { r1.1 with input_timer := none }
      (r2.1, r1.2 ++ r2.2)

/-- Run the controller over a timeline of keystrokes `(time, entry text)`.
Before handling a keystroke, a pending timer whose deadline has passed
fires; after the last keystroke the input pauses forever, so any pending
timer fires. -/
def debounceRun (interval : ℕ) : DebounceState → List (ℕ × String) →
    DebounceState × List (ℕ × String)
  | s, [] => fireTimer interval s
  | s, (t, txt) :: rest =>
    let fired :=
      match s.input_timer with
      | some (d, _) => if d ≤ t then fireTimer interval s else (s, [])
      | none => (s, [])
    let s2 := on_text_changed interval t txt fired.1
    let r := debounceRun interval s2 rest
    (r.1, fired.2 ++ r.2)

/-- All consecutive keystrokes arrive sooner than `interval` after the
previous one. -/
def gapsClose (interval : ℕ) : List (ℕ × String) → Bool
  | [] => true
  | [_] => true
  | (t1, _) :: (t2, x2) :: rest => decide (t2 < t1 + interval) && gapsClose interval ((t2, x2) :: rest)

/-! ### Concrete inputs used by the claim theorems -/

/-- A successful oracle request with the given response text. -/
def okO (s : String) : OracleOutcome := ⟨Except.ok s, 0⟩

/-- An oracle request that raised an exception with the given text. -/
def errO (s : String) : OracleOutcome := ⟨Except.error s, 0⟩

/-- The end-to-end scenario of the spec: 50cm x 70cm, costs 20/10/5, 8 hours. -/
def vals0 : Values :=
  { longueur := 50, largeur := 70, materiaux := 20, livraison := 10, pub := 5, temps := 8 }

/-- Oracle script for the end-to-end scenario: requirement text with no
keyword, demand 7, artist not known. -/
def script_c1 : OracleScript :=
  { requirements := okO "flat", market := okO "7", known := okO "no",
    artistPrice := okO "100", starting := okO "1200-1500" }

/-- Script whose demand-rating request raises with digits in the error text. -/
def script_c2a : OracleScript := { script_c1 with market := errO "429 Too Many Requests" }

/-- Script whose demand-rating request raises with no digit in the error text. -/
def script_c2b : OracleScript := { script_c1 with market := errO "boom" }

/-- Script with a known artist whose reference-price response is `"0"`. -/
def script_c5a : OracleScript := { script_c1 with known := okO "yes", artistPrice := okO "0" }

/-- Script with a known artist whose reference-price response is `"200"`. -/
def script_c5b : OracleScript := { script_c1 with known := okO "yes", artistPrice := okO "200" }

/-- The product-of-factors price of pricing.py line 110 (before the
known-artist averaging of line 114 and the digital premium of line 119), as
`calculate_price` computes it for a given known-artist flag.  Each
intermediate is the one the source computes. -/
def pipeline_unadjusted (os : OracleScript) (values : Values)
    (type_produit marche : String) (mats : List String) (is_3d is_known : Bool) : ℚ :=
  let req := parseRequirements (get_product_type_requirements os.requirements type_produit).1
  let market_demand := (search_int (consult_api_gemini os.market
    (prompt_market type_produit marche) "general").1).getD 5
  let height_val := if is_3d || req.needs_height then values.hauteur else 0
  let weight_val := if is_3d || req.needs_weight then values.poids else 0
  unadjusted_price values mats.length market_demand (reputation_bonus is_known)
    (dimension_factor req.is_digital is_3d values.longueur values.largeur height_val weight_val)
    (additional_factors values)

/-! ### Helper lemmas -/

/-- `List.isPrefixOf` finds exactly the prefixes. -/
theorem prefixOf_spec (p : List Char) : ∀ s, p.isPrefixOf s = true ↔ ∃ t, s = p ++ t := by
  induction p with
  | nil =>
    intro s
    simp [List.isPrefixOf]
  | cons a as ih =>
    intro s
    cases s with
    | nil => simp [List.isPrefixOf]
    | cons b bs =>
      simp only [List.isPrefixOf, Bool.and_eq_true, beq_iff_eq, ih bs, List.cons_append]
      constructor
      · rintro ⟨rfl, t, rfl⟩
        exact ⟨t, rfl⟩
      · rintro ⟨t, h⟩
        injection h with h1 h2
        exact ⟨h1.symm, t, h2⟩

/-- `containsL` (Python `in`) finds exactly the substrings. -/
theorem contains_spec (pat : List Char) : ∀ s, containsL pat s = true ↔
    ∃ pre post, s = pre ++ pat ++ post := by
  intro s
  induction s with
  | nil =>
    simp only [containsL, List.isEmpty_iff]
    constructor
    · rintro rfl
      exact ⟨[], [], rfl⟩
    · rintro ⟨pre, post, h⟩
      rcases List.append_eq_nil.1 h.symm with ⟨h1, -⟩
      exact (List.append_eq_nil.1 h1).2
  | cons c t ih =>
    simp only [containsL, Bool.or_eq_true, prefixOf_spec, ih]
    constructor
    · rintro (⟨post, h⟩ | ⟨pre, post, rfl⟩)
      · exact ⟨[], post, by simpa using h⟩
      · exact ⟨c :: pre, post, rfl⟩
    · rintro ⟨pre, post, h⟩
      cases pre with
      | nil =>
        exact Or.inl ⟨post, by simpa using h⟩
      | cons c2 pre2 =>
        injection h with h1 h2
        exact Or.inr ⟨pre2, post, h2⟩

/-- Every `consult_api_gemini` call records its request kind, whatever the
underlying outcome. -/
theorem consult_kind (o : OracleOutcome) (prompt kind : String) :
    (consult_api_gemini o prompt kind).2.request_type = kind := by
  unfold consult_api_gemini
  cases o.outcome <;> rfl

/-- `consult_api_gemini` on a raising request, fully evaluated. -/
theorem consult_error (e : String) (d : ℚ) (prompt kind : String) :
    consult_api_gemini ⟨Except.error e, d⟩ prompt kind =
      ("API Error: " ++ e, ⟨kind, prompt, "API Error: " ++ e, d⟩) := rfl

/-- The requirement lookup records kind "product_requirements". -/
theorem req_kind (o : OracleOutcome) (tp : String) :
    (get_product_type_requirements o tp).2.request_type = "product_requirements" := by
  unfold get_product_type_requirements
  exact consult_kind o _ _

/-- The artist-recognition lookup records kind "artist_recognition". -/
theorem known_kind (o : OracleOutcome) (a : String) :
    (check_known_artist o a).2.request_type = "artist_recognition" := by
  unfold check_known_artist
  exact consult_kind o _ _

/-- The reference-price lookup records kind "artist_price_check". -/
theorem price_kind (o : OracleOutcome) (a tp : String) :
    (get_artist_price o a tp).2.request_type = "artist_price_check" := by
  unfold get_artist_price
  exact consult_kind o _ _

/-- The price-recommendation lookup records kind "price_recommendation". -/
theorem start_kind (o : OracleOutcome) (tp a m : String) (mats : List String)
    (dims : String) (poids : Option String) (res : Option (String ⊕ ℚ))
    (dur : Option ℚ) (dig : Bool) :
    (get_starting_price_from_gpt o tp a m mats dims poids res dur dig).2.request_type =
      "price_recommendation" := by
  unfold get_starting_price_from_gpt
  exact consult_kind o _ _

/-- Scanning an all-digit run with an open group accumulates its digits. -/
theorem scanNums_digit_run (g : List Char) : ∀ v, (∀ c ∈ g, c.isDigit = true) →
    scanNums g (some v) = [g.foldl (fun a c => a * 10 + digitVal c) v] := by
  induction g with
  | nil =>
    intro v _
    rfl
  | cons c tl ih =>
    intro v h
    have hc : c.isDigit = true := h c (List.mem_cons_self c tl)
    simp only [scanNums, hc, if_true, Option.getD_some, List.foldl_cons]
    exact ih (v * 10 + digitVal c) fun d hd => h d (List.mem_cons_of_mem c hd)

/-- Scanning a nonempty all-digit run from scratch yields its value. -/
theorem scanNums_run_none (g : List Char) (hne : g ≠ []) (h : ∀ c ∈ g, c.isDigit = true) :
    scanNums g none = [natOfDigits g] := by
  cases g with
  | nil => exact absurd rfl hne
  | cons c tl =>
    have hc : c.isDigit = true := h c (List.mem_cons_self c tl)
    simp only [scanNums, hc, if_true, Option.getD_none]
    rw [scanNums_digit_run tl (0 * 10 + digitVal c) fun d hd => h d (List.mem_cons_of_mem c hd)]
    simp [natOfDigits]

/-- A whitespace separator between two digit runs joins them into one
number (the regex group `\d+(?:\s*\d+)*` plus `re.sub(r"\s", "", m)`). -/
theorem scanNums_ws_join (g1 g2 : List Char) (w : Char) (hwd : w.isDigit = false)
    (hww : w.isWhitespace = true) (h2 : ∀ c ∈ g2, c.isDigit = true) :
    ∀ v, (∀ c ∈ g1, c.isDigit = true) →
    scanNums (g1 ++ w :: g2) (some v) =
      [(g1 ++ g2).foldl (fun a c => a * 10 + digitVal c) v] := by
  induction g1 with
  | nil =>
    intro v _
    simp only [List.nil_append, scanNums, hwd, hww, if_true, Bool.false_eq_true, if_false]
    exact scanNums_digit_run g2 v h2
  | cons c tl ih =>
    intro v h1
    have hc : c.isDigit = true := h1 c (List.mem_cons_self c tl)
    simp only [List.cons_append, scanNums, hc, if_true, Option.getD_some, List.foldl_cons]
    exact ih (v * 10 + digitVal c) fun d hd => h1 d (List.mem_cons_of_mem c hd)

/-- A non-whitespace separator between two digit runs ends the group: the
two runs are two numbers. -/
theorem scanNums_sep_split (g1 g2 : List Char) (w : Char) (hwd : w.isDigit = false)
    (hww : w.isWhitespace = false) (h2ne : g2 ≠ []) (h2 : ∀ c ∈ g2, c.isDigit = true) :
    ∀ v, (∀ c ∈ g1, c.isDigit = true) →
    scanNums (g1 ++ w :: g2) (some v) =
      [g1.foldl (fun a c => a * 10 + digitVal c) v, natOfDigits g2] := by
  induction g1 with
  | nil =>
    intro v _
    simp only [List.nil_append, scanNums, hwd, hww, Bool.false_eq_true, if_false,
      List.foldl_nil]
    rw [scanNums_run_none g2 h2ne h2]
  | cons c tl ih =>
    intro v h1
    have hc : c.isDigit = true := h1 c (List.mem_cons_self c tl)
    simp only [List.cons_append, scanNums, hc, if_true, Option.getD_some, List.foldl_cons]
    exact ih (v * 10 + digitVal c) fun d hd => h1 d (List.mem_cons_of_mem c hd)

/-- Running the debounce controller over a burst of keystrokes that each
arrive sooner than `interval` after the previous one: no timer fires during
the burst, and after the burst the timer armed by the final keystroke fires
once with the final stripped text (or never, if that text is blank). -/
theorem debounce_run_spec (interval : ℕ) :
    ∀ (rest : List (ℕ × String)) (t : ℕ) (x : String) (s : DebounceState),
    gapsClose interval ((t, x) :: rest) = true →
    (∀ d v, s.input_timer = some (d, v) → t < d) →
    debounceRun interval s ((t, x) :: rest) =
      ({ text := (((t, x) :: rest).getLastD (0, "")).2, input_timer := none },
       if strip (((t, x) :: rest).getLastD (0, "")).2 = "" then []
       else [((((t, x) :: rest).getLastD (0, "")).1 + interval,
         strip (((t, x) :: rest).getLastD (0, "")).2)]) := by
  intro rest
  induction rest with
  | nil =>
    intro t x s hg hs
    have hfired : (match s.input_timer with
        | some (d, _) => if d ≤ t then fireTimer interval s else (s, [])
        | none => (s, [])) = (s, ([] : List (ℕ × String))) := by
      cases hcase : s.input_timer with
      | none => rfl
      | some p =>
        have hlt := hs p.1 p.2 (by rw [hcase])
        simp [Nat.not_le.2 hlt]
    simp only [debounceRun, hfired, on_text_changed, start_input_check_timer]
    by_cases hx : strip x = "" <;>
      simp [hx, fireTimer, finish_typing, List.getLastD]
  | cons p rest ih =>
    intro t x s hg hs
    have hg1 : p.1 < t + interval := by
      have := hg
      cases p
      simp only [gapsClose, Bool.and_eq_true, decide_eq_true_eq] at this
      exact this.1
    have hg2 : gapsClose interval (p :: rest) = true := by
      cases p
      simp only [gapsClose, Bool.and_eq_true, decide_eq_true_eq] at hg
      exact hg.2
    have hfired : (match s.input_timer with
        | some (d, _) => if d ≤ t then fireTimer interval s else (s, [])
        | none => (s, [])) = (s, ([] : List (ℕ × String))) := by
      cases hcase : s.input_timer with
      | none => rfl
      | some q =>
        have hlt := hs q.1 q.2 (by rw [hcase])
        simp [Nat.not_le.2 hlt]
    cases p with
    | mk t2 x2 =>
      have hrec := ih t2 x2 (on_text_changed interval t x s) hg2 (by
        intro d v hd
        unfold on_text_changed start_input_check_timer at hd
        by_cases hx : strip x = ""
        · simp [hx] at hd
        · simp [hx] at hd
          omega)
      rw [debounceRun.eq_def]
      dsimp only
      rw [hfired]
      dsimp only
      rw [hrec]
      simp [List.getLastD_cons]

/-! ### Claim theorems -/

/-- C1 (counterexample): in the end-to-end scenario (2D "Painting", materials
Canvas and Oil, 50x70cm, costs 20/10/5, 8h, demand 7, artist unknown),
`calculate_price` does return `155 * 1.2 * 1.15 * 35.0` — but that product is
7486.5, which is not within 0.1 of the spec's stated figure 7486.9, so the
claim as stated is false. -/
theorem c1_price_not_7486_9 :
    (calculate_price script_c1 (Except.ok ()) vals0 "Painting" "A" "M" ["Canvas", "Oil"]
      false).result.toOption.map PriceResult.prix = some (155 * 1.2 * 1.15 * 35.0) ∧
    ¬ |(155 * 1.2 * 1.15 * 35.0 : ℚ) - 7486.9| ≤ 0.1 := by
  constructor
  · simp only [calculate_price, script_c1, vals0, okO, consult_api_gemini,
      get_product_type_requirements, check_known_artist, get_artist_price, prompt_market,
      Except.toOption, Option.map_some]
    norm_num +decide [parseRequirements, pyIn, lowerStr, search_int, first_int_run,
      natOfDigits, digitVal, dimension_factor, unadjusted_price, additional_factors,
      reputation_bonus, digital_premium, pyTruthy, show ('7').toNat = 55 from rfl]
  · rw [abs_le]
    norm_num

/-- C1 (amended): in the end-to-end scenario, `calculate_price` returns a
price equal to `155 * 1.2 * 1.15 * 35.0`, which is 7486.5 within a tolerance
of 0.1. -/
theorem c1_end_to_end :
    (calculate_price script_c1 (Except.ok ()) vals0 "Painting" "A" "M" ["Canvas", "Oil"]
      false).result.toOption.map PriceResult.prix = some (155 * 1.2 * 1.15 * 35.0) ∧
    |(155 * 1.2 * 1.15 * 35.0 : ℚ) - 7486.5| ≤ 0.1 := by
  constructor
  · simp only [calculate_price, script_c1, vals0, okO, consult_api_gemini,
      get_product_type_requirements, check_known_artist, get_artist_price, prompt_market,
      Except.toOption, Option.map_some]
    norm_num +decide [parseRequirements, pyIn, lowerStr, search_int, first_int_run,
      natOfDigits, digitVal, dimension_factor, unadjusted_price, additional_factors,
      reputation_bonus, digital_premium, pyTruthy, show ('7').toNat = 55 from rfl]
  · rw [abs_le]
    norm_num

/-- C4 (counterexample): when the ledger append raises after a successful
computation, `calculate_price` does not return the already-computed
PriceResult — the exception propagates (pricing.py line 154 has no handler),
so the price is lost rather than surfaced with a warning. -/
theorem c4_ledger_failure_loses_price :
    (calculate_price script_c1 (Except.error "disk full") vals0 "Painting" "A" "M"
      ["Canvas", "Oil"] false).result = Except.error "disk full" ∧
    (calculate_price script_c1 (Except.error "disk full") vals0 "Painting" "A" "M"
      ["Canvas", "Oil"] false).result.isOk = false :=
  ⟨rfl, rfl⟩

/-- C4 (amended): for every computation whose ledger append fails, the
failure propagates out of `calculate_price`: the computed PriceResult is not
returned (the UI catches the exception as a generic error), no row is
appended, and the oracle interactions already performed are exactly those of
the successful run. -/
theorem c4_ledger_failure_propagates (os : OracleScript) (values : Values)
    (type_produit artiste marche e : String) (mats : List String) (is_3d : Bool) :
    (calculate_price os (Except.error e) values type_produit artiste marche mats
      is_3d).result = Except.error e ∧
    (calculate_price os (Except.error e) values type_produit artiste marche mats
      is_3d).rowsAppended = 0 ∧
    (calculate_price os (Except.error e) values type_produit artiste marche mats
      is_3d).interactions =
      (calculate_price os (Except.ok ()) values type_produit artiste marche mats
        is_3d).interactions :=
  ⟨rfl, rfl, rfl⟩

/-- C6 (counterexample): a digital product with pixel area 0 (below
1,000,000) gets dimension factor 1.0, not the 0.8 the step function as
stated would give. -/
theorem c6_zero_area_not_point_eight :
    (0 : ℚ) * 500 < 1000000 ∧ dimension_factor true false 0 500 0 0 = 1 ∧
    (1 : ℚ) ≠ 0.8 := by
  refine ⟨by norm_num, ?_, by norm_num⟩
  unfold dimension_factor
  norm_num

/-- C6 (amended): for every digital product with positive pixel area
`l * w`, the dimension factor is the stated step function: below 1,000,000 →
0.8; from exactly 1,000,000 up to below 4,000,000 → 1.0; from exactly
4,000,000 up to below 8,000,000 → 1.2; from exactly 8,000,000 on → 1.5
(areas that are zero or negative are covered by C10 instead). -/
theorem c6_digital_step_function (b : Bool) (l w hv wv : ℚ) (h : 0 < l * w) :
    (l * w < 1000000 → dimension_factor true b l w hv wv = 0.8) ∧
    (1000000 ≤ l * w → l * w < 4000000 → dimension_factor true b l w hv wv = 1.0) ∧
    (4000000 ≤ l * w → l * w < 8000000 → dimension_factor true b l w hv wv = 1.2) ∧
    (8000000 ≤ l * w → dimension_factor true b l w hv wv = 1.5) := by
  refine ⟨fun h1 => ?_, fun h1 h2 => ?_, fun h1 h2 => ?_, fun h1 => ?_⟩
  · unfold dimension_factor
    simp [h, h1]
  · unfold dimension_factor
    simp [h, not_lt.2 h1, h2]
  · unfold dimension_factor
    simp [h, not_lt.2 h1, not_lt.2 (le_trans (by norm_num : (1000000 : ℚ) ≤ 4000000) h1), h2]
  · unfold dimension_factor
    simp [h, not_lt.2 h1, not_lt.2 (le_trans (by norm_num : (1000000 : ℚ) ≤ 8000000) h1),
      not_lt.2 (le_trans (by norm_num : (4000000 : ℚ) ≤ 8000000) h1)]

/-- C6 witness: a 1000x1000 digital product sits exactly on the 1,000,000
boundary and gets factor 1.0. -/
theorem c6_digital_step_function_witness :
    (0 : ℚ) < 1000 * 1000 ∧ dimension_factor true false 1000 1000 0 0 = 1.0 :=
  ⟨by norm_num,
   (c6_digital_step_function false 1000 1000 0 0 (by norm_num)).2.1 (by norm_num) (by norm_num)⟩

/-- C9 (counterexample): a reference-price response of `"1,200"` is parsed
as the two numbers 1 and 200 (mean 100.5), not as the single comma-grouped
figure 1200 — comma digit-group separators are not normalized. -/
theorem c9_comma_not_normalized :
    (get_artist_price (okO "1,200") "A" "Painting").1 = some ((201 : ℚ) / 2) ∧
    ((201 : ℚ) / 2) ≠ 1200 := by
  constructor
  · have h : extractNums "1,200" = [1, 200] := by decide
    simp only [get_artist_price, okO, consult_api_gemini, h]
    norm_num
  · norm_num

/-- C9 (amended): the reference price is the numeric mean of every number
found in the response, where a number is a maximal run of digits possibly
separated by whitespace (space digit-group separators are joined; any other
separator, a comma included, splits the digits into distinct numbers); if no
number is found the reference price is absent; the reputation bonus for a
known artist is the fixed constant 50 (and 0 otherwise). -/
theorem c9_artist_price_parse :
    (∀ (o : OracleOutcome) (a tp r : String), o.outcome = Except.ok r →
      extractNums r = [] → (get_artist_price o a tp).1 = none) ∧
    (∀ (o : OracleOutcome) (a tp r : String) (ns : List ℕ), o.outcome = Except.ok r →
      extractNums r = ns → ns ≠ [] →
      (get_artist_price o a tp).1 = some ((ns.sum : ℚ) / (ns.length : ℚ))) ∧
    (∀ g1 g2 : List Char, g1 ≠ [] → g2 ≠ [] → (∀ c ∈ g1, c.isDigit = true) →
      (∀ c ∈ g2, c.isDigit = true) →
      extractNums ⟨g1 ++ ' ' :: g2⟩ = [natOfDigits (g1 ++ g2)] ∧
      extractNums ⟨g1 ++ ',' :: g2⟩ = [natOfDigits g1, natOfDigits g2]) ∧
    reputation_bonus true = 50 ∧ reputation_bonus false = 0 := by
  refine ⟨?_, ?_, ?_, rfl, rfl⟩
  · intro o a tp r ho hr
    simp only [get_artist_price, consult_api_gemini, ho, hr]
  · intro o a tp r ns ho hr hne
    cases ns with
    | nil => exact absurd rfl hne
    | cons n tl => simp only [get_artist_price, consult_api_gemini, ho, hr]
  · intro g1 g2 h1ne h2ne h1 h2
    cases g1 with
    | nil => exact absurd rfl h1ne
    | cons c tl =>
      have hc : c.isDigit = true := h1 c (List.mem_cons_self c tl)
      have htl : ∀ d ∈ tl, d.isDigit = true := fun d hd => h1 d (List.mem_cons_of_mem c hd)
      constructor
      · show scanNums (c :: tl ++ ' ' :: g2) none = _
        simp only [List.cons_append, scanNums, hc, if_true, Option.getD_none, List.append_eq]
        rw [scanNums_ws_join tl g2 ' ' (by decide) (by decide) h2 (0 * 10 + digitVal c) htl]
        simp [natOfDigits]
      · show scanNums (c :: tl ++ ',' :: g2) none = _
        simp only [List.cons_append, scanNums, hc, if_true, Option.getD_none, List.append_eq]
        rw [scanNums_sep_split tl g2 ',' (by decide) (by decide) h2ne h2
          (0 * 10 + digitVal c) htl]
        simp [natOfDigits]

/-- C9 witness: a response without numbers yields no reference price; space
separators join (`"1 200"` gives 1200); commas split. -/
theorem c9_artist_price_parse_witness :
    (okO "no sales found").outcome = Except.ok "no sales found" ∧
    extractNums "no sales found" = [] ∧
    (get_artist_price (okO "no sales found") "A" "Painting").1 = none ∧
    extractNums ⟨['1'] ++ ' ' :: ['2', '0', '0']⟩ = [natOfDigits (['1'] ++ ['2', '0', '0'])] ∧
    extractNums ⟨['1'] ++ ',' :: ['2', '0', '0']⟩ =
      [natOfDigits ['1'], natOfDigits ['2', '0', '0']] :=
  ⟨rfl, by decide,
   c9_artist_price_parse.1 (okO "no sales found") "A" "Painting" "no sales found" rfl
     (by decide),
   (c9_artist_price_parse.2.2.1 ['1'] ['2', '0', '0'] (by decide) (by decide) (by decide)
     (by decide)).1,
   (c9_artist_price_parse.2.2.1 ['1'] ['2', '0', '0'] (by decide) (by decide) (by decide)
     (by decide)).2⟩

/-- C10: for every digital product whose pixel area is zero or negative, the
dimension factor stays 1.0 and the formatted dimension string is
`"Unknown"`. -/
theorem c10_nonpositive_pixel_area (b : Bool) (l w hv wv : ℚ) (h : l * w ≤ 0) :
    dimension_factor true b l w hv wv = 1 ∧ dimensions_string true b l w hv = "Unknown" := by
  unfold dimension_factor dimensions_string
  constructor <;> (simp [not_lt.2 h]; try norm_num)

/-- C2 (counterexample): when the demand-rating request raises an exception
whose text contains digits (here "429 Too Many Requests"), the computation
completes but market_demand is parsed from the error string as 429, not
defaulted to 5 — the unconditional "defaults to 5" part of the claim is
false. -/
theorem c2_error_digits_override_default :
    (calculate_price script_c2a (Except.ok ()) vals0 "Painting" "A" "M" ["Canvas", "Oil"]
      false).result.toOption.map PriceResult.demande_marche = some 429 ∧
    (429 : ℕ) ≠ 5 ∧
    (calculate_price script_c2a (Except.ok ()) vals0 "Painting" "A" "M" ["Canvas", "Oil"]
      false).result.isOk = true := by
  refine ⟨?_, by decide, rfl⟩
  decide

/-- C2 (amended): a raising oracle call is caught inside the client: exactly
one interaction (kind, prompt, error text as response, elapsed duration) is
recorded and the error string is returned instead of propagating; the price
computation completes with a non-null result; and when the demand-rating
call raises, market_demand is parsed from the error string like any
response — the first digit run if present, else the default 5 (so it
defaults to 5 exactly when the error text contains no digit). -/
theorem c2_oracle_error_degrades (os : OracleScript) (values : Values)
    (type_produit artiste marche : String) (mats : List String) (is_3d : Bool)
    (e : String) (d : ℚ) (hm : os.market = ⟨Except.error e, d⟩) :
    (∀ prompt kind, consult_api_gemini ⟨Except.error e, d⟩ prompt kind =
      ("API Error: " ++ e,
       ⟨kind, prompt, "API Error: " ++ e, d⟩)) ∧
    (calculate_price os (Except.ok ()) values type_produit artiste marche mats
      is_3d).result.isOk = true ∧
    (calculate_price os (Except.ok ()) values type_produit artiste marche mats
      is_3d).interactions.filter (fun i => i.request_type = "general") =
      [⟨"general", prompt_market type_produit marche, "API Error: " ++ e, d⟩] ∧
    (calculate_price os (Except.ok ()) values type_produit artiste marche mats
      is_3d).result.toOption.map PriceResult.demande_marche =
      some ((search_int ("API Error: " ++ e)).getD 5) := by
  refine ⟨fun prompt kind => rfl, rfl, ?_, ?_⟩
  · cases hk : (check_known_artist os.known artiste).1 <;>
      simp +decide [calculate_price, hm, hk, consult_error, req_kind, known_kind,
        price_kind, start_kind, List.filter_append, List.filter]
  · simp [calculate_price, hm, consult_error, Except.toOption]

/-- C2 witness: a demand-rating exception "boom" (no digits) is recorded as
one audit row, the computation completes, and market_demand is 5. -/
theorem c2_oracle_error_degrades_witness :
    script_c2b.market = OracleOutcome.mk (Except.error "boom") 0 ∧
    (calculate_price script_c2b (Except.ok ()) vals0 "Painting" "A" "M" ["Canvas", "Oil"]
      false).result.isOk = true ∧
    (calculate_price script_c2b (Except.ok ()) vals0 "Painting" "A" "M" ["Canvas", "Oil"]
      false).interactions.filter (fun i => i.request_type = "general") =
      [⟨"general", prompt_market "Painting" "M", "API Error: boom", 0⟩] ∧
    (calculate_price script_c2b (Except.ok ()) vals0 "Painting" "A" "M" ["Canvas", "Oil"]
      false).result.toOption.map PriceResult.demande_marche = some 5 := by
  have h := c2_oracle_error_degrades script_c2b vals0 "Painting" "A" "M" ["Canvas", "Oil"]
    false "boom" 0 rfl
  exact ⟨rfl, h.2.1, h.2.2.1, h.2.2.2.trans (by decide)⟩

/-- C3: for every input with a missing (blank-after-strip) artist, market or
product type, or an empty material set, the UI validation raises before the
pricing engine runs: the outcome is a validation error with no oracle
interaction recorded and no ledger row written. -/
theorem c3_validation_fails_fast (os : OracleScript) (ledger : Except String Unit)
    (values : Values) (var_type entry_other_type entry_artist entry_market : String)
    (mats : List String) (hfm : Bool)
    (h : strip entry_artist = "" ∨ strip entry_market = "" ∨
      (if var_type = "Other" then strip entry_other_type else var_type) = "" ∨ mats = []) :
    (ui_calculate_price os ledger values var_type entry_other_type entry_artist entry_market
      mats hfm).interactions = [] ∧
    (ui_calculate_price os ledger values var_type entry_other_type entry_artist entry_market
      mats hfm).rowsAppended = 0 ∧
    ∃ msg, (ui_calculate_price os ledger values var_type entry_other_type entry_artist
      entry_market mats hfm).result = Except.error msg := by
  unfold ui_calculate_price
  rcases h with h | h | h | h
  · simp [h]
  · by_cases ha : strip entry_artist = "" <;> simp [ha, h]
  · by_cases ha : strip entry_artist = "" <;> by_cases hm : strip entry_market = "" <;>
      simp [ha, hm, h]
  · by_cases ha : strip entry_artist = "" <;> by_cases hm : strip entry_market = "" <;>
      by_cases hp : (if var_type = "Other" then strip entry_other_type else var_type) = "" <;>
      simp [ha, hm, hp, h]

/-- C3 witness: a whitespace-only artist name is rejected with no oracle
call and no ledger row. -/
theorem c3_validation_fails_fast_witness :
    (strip "  " = "" ∨ strip "M" = "" ∨
      (if "Painting" = "Other" then strip "" else "Painting") = "" ∨
      (["Canvas"] : List String) = []) ∧
    (ui_calculate_price script_c1 (Except.ok ()) vals0 "Painting" "" "  " "M"
      ["Canvas"] false).interactions = [] ∧
    (ui_calculate_price script_c1 (Except.ok ()) vals0 "Painting" "" "  " "M"
      ["Canvas"] false).rowsAppended = 0 ∧
    ∃ msg, (ui_calculate_price script_c1 (Except.ok ()) vals0 "Painting" "" "  " "M"
      ["Canvas"] false).result = Except.error msg :=
  ⟨Or.inl (by decide),
   c3_validation_fails_fast script_c1 (Except.ok ()) vals0 "Painting" "" "  " "M"
     ["Canvas"] false (Or.inl (by decide))⟩

/-- C5 (counterexample): a known artist whose reference-price response
parses to 0 ("a reference price R was obtained" with R = 0) is NOT averaged:
Python's `if is_known and reference_price:` treats 0.0 as falsy, so the
price stays 9901.5 instead of the claimed (9901.5 + 0) / 2. -/
theorem c5_zero_reference_not_averaged :
    (get_artist_price script_c5a.artistPrice "A" "Painting").1 = some 0 ∧
    (calculate_price script_c5a (Except.ok ()) vals0 "Painting" "A" "M" ["Canvas", "Oil"]
      false).result.toOption.map PriceResult.prix = some ((19803 : ℚ) / 2) ∧
    ((19803 : ℚ) / 2) ≠ (((19803 : ℚ) / 2) + 0) / 2 := by
  refine ⟨?_, ?_, by norm_num⟩
  · have hx : extractNums "0" = [0] := by decide
    simp [get_artist_price, consult_api_gemini, script_c5a, script_c1, okO, hx]
  · simp only [calculate_price, script_c5a, script_c1, vals0, okO, consult_api_gemini,
      get_product_type_requirements, check_known_artist, get_artist_price, prompt_market,
      Except.toOption, Option.map_some]
    norm_num +decide [parseRequirements, pyIn, lowerStr, search_int, first_int_run,
      natOfDigits, digitVal, dimension_factor, unadjusted_price, additional_factors,
      reputation_bonus, digital_premium, pyTruthy, extractNums, scanNums,
      show ('7').toNat = 55 from rfl, show ('0').toNat = 48 from rfl]

/-- C5 (amended): if the artist is judged known and a nonzero reference
price R is obtained, the price directly after the averaging step is
`(unadjusted_price + R) / 2` — the digital-resolution premium, when
applicable, is applied after that averaging; if the obtained reference price
is 0 it is treated as absent (no averaging); if the artist is judged not
known, the price carries no reputation bonus and no averaging. -/
theorem c5_known_artist_averaging (os : OracleScript) (values : Values)
    (type_produit artiste marche : String) (mats : List String) (is_3d : Bool) (R : ℚ) :
    ((check_known_artist os.known artiste).1 = true →
      (get_artist_price os.artistPrice artiste type_produit).1 = some R → R ≠ 0 →
      (calculate_price os (Except.ok ()) values type_produit artiste marche mats
        is_3d).result.toOption.map PriceResult.prix =
        some (digital_premium values
          (parseRequirements (get_product_type_requirements os.requirements
            type_produit).1).is_digital
          ((pipeline_unadjusted os values type_produit marche mats is_3d true + R) / 2))) ∧
    ((check_known_artist os.known artiste).1 = true →
      (get_artist_price os.artistPrice artiste type_produit).1 = some 0 →
      (calculate_price os (Except.ok ()) values type_produit artiste marche mats
        is_3d).result.toOption.map PriceResult.prix =
        some (digital_premium values
          (parseRequirements (get_product_type_requirements os.requirements
            type_produit).1).is_digital
          (pipeline_unadjusted os values type_produit marche mats is_3d true))) ∧
    ((check_known_artist os.known artiste).1 = false →
      (calculate_price os (Except.ok ()) values type_produit artiste marche mats
        is_3d).result.toOption.map PriceResult.prix =
        some (digital_premium values
          (parseRequirements (get_product_type_requirements os.requirements
            type_produit).1).is_digital
          (pipeline_unadjusted os values type_produit marche mats is_3d false))) := by
  refine ⟨fun hk hr hR => ?_, fun hk hr => ?_, fun hk => ?_⟩
  · simp [calculate_price, pipeline_unadjusted, hk, hr, pyTruthy, hR, Except.toOption]
  · simp [calculate_price, pipeline_unadjusted, hk, hr, pyTruthy, Except.toOption]
  · simp [calculate_price, pipeline_unadjusted, hk, Except.toOption]

/-- C5 witness: known artist, reference price 200, averaging applies. -/
theorem c5_known_artist_averaging_witness :
    (check_known_artist script_c5b.known "A").1 = true ∧
    (get_artist_price script_c5b.artistPrice "A" "Painting").1 = some 200 ∧
    ((200 : ℚ) ≠ 0) ∧
    (calculate_price script_c5b (Except.ok ()) vals0 "Painting" "A" "M" ["Canvas", "Oil"]
      false).result.toOption.map PriceResult.prix =
      some (digital_premium vals0
        (parseRequirements (get_product_type_requirements script_c5b.requirements
          "Painting").1).is_digital
        ((pipeline_unadjusted script_c5b vals0 "Painting" "M" ["Canvas", "Oil"] false true
          + 200) / 2)) := by
  have hr : (get_artist_price script_c5b.artistPrice "A" "Painting").1 = some 200 := by
    have hx : extractNums "200" = [200] := by decide
    simp [get_artist_price, consult_api_gemini, script_c5b, script_c1, okO, hx]
  have hk : (check_known_artist script_c5b.known "A").1 = true := by decide
  exact ⟨hk, hr, by norm_num,
    (c5_known_artist_averaging script_c5b vals0 "Painting" "A" "M" ["Canvas", "Oil"] false
      200).1 hk hr (by norm_num)⟩

/-- C7: each text-change event cancels any outstanding timer and, iff the
stripped text is non-empty, arms a new timer for the fixed inactivity
interval; and for a burst of keystrokes each arriving sooner than the
interval after the previous one, no classification call fires during the
burst and exactly one fires after the pause, at last-keystroke time plus the
interval, with the text current at the pause. -/
theorem c7_debounce (interval t : ℕ) (x : String) (rest : List (ℕ × String))
    (hg : gapsClose interval ((t, x) :: rest) = true)
    (hx : strip (((t, x) :: rest).getLastD (0, "")).2 ≠ "") :
    (∀ (s : DebounceState) (now : ℕ) (txt : String),
      (on_text_changed interval now txt s).input_timer =
        if strip txt = "" then none else some (now + interval, strip txt)) ∧
    (debounceRun interval initState ((t, x) :: rest)).2 =
      [((((t, x) :: rest).getLastD (0, "")).1 + interval,
        strip (((t, x) :: rest).getLastD (0, "")).2)] := by
  constructor
  · intro s now txt
    unfold on_text_changed start_input_check_timer
    by_cases h : strip txt = "" <;> simp [h]
  · rw [debounce_run_spec interval rest t x initState hg
      (by intro d v h; simp [initState] at h)]
    dsimp only
    rw [if_neg hx]

/-- C7 witness: keystrokes at 0ms and 600ms with the default 1000ms
interval produce exactly one classification, at 1600ms, for the final
text. -/
theorem c7_debounce_witness :
    gapsClose 1000 [(0, "sc"), (600, "sculpture")] = true ∧
    strip ((([(0, "sc"), (600, "sculpture")] : List (ℕ × String)).getLastD (0, "")).2) ≠ "" ∧
    (debounceRun 1000 initState [(0, "sc"), (600, "sculpture")]).2 =
      [(1600, "sculpture")] := by
  have h := c7_debounce 1000 0 "sc" [(600, "sculpture")] (by decide) (by decide)
  exact ⟨by decide, by decide, h.2.trans (by decide)⟩

/-- C8: the unstructured-response fallback derives each requirement flag by
case-insensitive keyword presence exactly as listed (presence expressed as
substring occurrence in the lowercased response), and the classifier is a
function of the response text alone, so applying it twice to the same text
yields identical flags. -/
theorem c8_keyword_fallback (s t : String) :
    (s = t → parseRequirements s = parseRequirements t) ∧
    ((parseRequirements s).is_digital = true ↔
      ∃ pre post, (lowerStr s).data = pre ++ "digital".data ++ post) ∧
    ((parseRequirements s).is_3d = true ↔
      ((∃ pre post, (lowerStr s).data = pre ++ "3d".data ++ post) ∨
       (∃ pre post, (lowerStr s).data = pre ++ "three-dimensional".data ++ post) ∨
       (∃ pre post, (lowerStr s).data = pre ++ "sculpture".data ++ post) ∨
       (∃ pre post, (lowerStr s).data = pre ++ "installation".data ++ post))) ∧
    ((parseRequirements s).needs_height = true ↔
      ((∃ pre post, (lowerStr s).data = pre ++ "height".data ++ post) ∨
       (∃ pre post, (lowerStr s).data = pre ++ "dimension".data ++ post))) ∧
    ((parseRequirements s).needs_weight = true ↔
      ((∃ pre post, (lowerStr s).data = pre ++ "weight".data ++ post) ∨
       (∃ pre post, (lowerStr s).data = pre ++ "mass".data ++ post))) ∧
    ((parseRequirements s).needs_duration = true ↔
      ((∃ pre post, (lowerStr s).data = pre ++ "duration".data ++ post) ∨
       (∃ pre post, (lowerStr s).data = pre ++ "length".data ++ post))) ∧
    ((parseRequirements s).needs_resolution = true ↔
      ((∃ pre post, (lowerStr s).data = pre ++ "resolution".data ++ post) ∨
       (∃ pre post, (lowerStr s).data = pre ++ "quality".data ++ post))) := by
  refine ⟨fun h => by rw [h], ?_, ?_, ?_, ?_, ?_, ?_⟩ <;>
    simp [parseRequirements, pyIn, contains_spec, or_assoc]

/-- C8 witness: the classifier applied twice to one response agrees with
itself, and that response is classified digital. -/
theorem c8_keyword_fallback_witness :
    parseRequirements "A Digital work" = parseRequirements "A Digital work" ∧
    (parseRequirements "A Digital work").is_digital = true :=
  ⟨(c8_keyword_fallback "A Digital work" "A Digital work").1 rfl,
   (c8_keyword_fallback "A Digital work" "A Digital work").2.1.mpr
     ⟨"a ".data, " work".data, by decide⟩⟩

/-- C10 witness: a digital product with zero length. -/
theorem c10_nonpositive_pixel_area_witness :
    (0 : ℚ) * 5 ≤ 0 ∧ dimension_factor true false 0 5 0 0 = 1 ∧
    dimensions_string true false 0 5 0 = "Unknown" :=
  ⟨by norm_num, (c10_nonpositive_pixel_area false 0 5 0 0 (by norm_num)).1,
   (c10_nonpositive_pixel_area false 0 5 0 0 (by norm_num)).2⟩

end Cre8Worthy
